import Mathlib

/-!
Verification of the dcat-br conversion scripts.

Shallow embedding of the core logic of:
- src/scripts/utils/vocabularies.py  (vocabulary resolver and its cache)
- src/scripts/utils/date_utils.py    (date normalizer)
- src/scripts/api_to_rdf.py          (graph builder attribute blocks)
- src/scripts/validate_rdf.py        (parse stage of the validation distiller)

External effects (file reads, network fetches, the rdflib and pyshacl
libraries) are modelled as explicit parameters; Python dictionaries are
modelled as association lists; Python string operations are modelled on
Lean strings character by character.
-/

namespace DcatBr

/-! ## Python string primitives -/

/-- The characters Python str.strip removes by default (ASCII whitespace). -/
def pyWhitespaceChar (c : Char) : Bool :=
  c = ' ' || c = '\t' || c = '\n' || c = '\r' || c = '\x0b' || c = '\x0c'

def pyStripList (cs : List Char) : List Char :=
  ((cs.dropWhile pyWhitespaceChar).reverse.dropWhile pyWhitespaceChar).reverse

/-- Python str.strip() with no argument. -/
def pyStrip (s : String) : String := String.mk (pyStripList s.toList)

/-- Python str.lower per character, covering ASCII letters and the accented
Latin letters appearing in the Portuguese vocabulary labels. -/
def pyLowerChar (c : Char) : Char :=
  if 'A' ≤ c && c ≤ 'Z' then Char.toLower c else
  match c with
  | 'Á' => 'á' | 'É' => 'é' | 'Í' => 'í' | 'Ó' => 'ó' | 'Ú' => 'ú'
  | 'Â' => 'â' | 'Ê' => 'ê' | 'Ô' => 'ô' | 'Ã' => 'ã' | 'Õ' => 'õ'
  | 'À' => 'à' | 'Ç' => 'ç' | 'Ü' => 'ü'
  | _ => c

/-- Python str.upper per character, same character coverage. -/
def pyUpperChar (c : Char) : Char :=
  if 'a' ≤ c && c ≤ 'z' then Char.toUpper c else
  match c with
  | 'á' => 'Á' | 'é' => 'É' | 'í' => 'Í' | 'ó' => 'Ó' | 'ú' => 'Ú'
  | 'â' => 'Â' | 'ê' => 'Ê' | 'ô' => 'Ô' | 'ã' => 'Ã' | 'õ' => 'Õ'
  | 'à' => 'À' | 'ç' => 'Ç' | 'ü' => 'Ü'
  | _ => c

def pyLower (s : String) : String := String.mk (s.toList.map pyLowerChar)

def pyUpper (s : String) : String := String.mk (s.toList.map pyUpperChar)

/-- Models unicodedata NFD decomposition followed by dropping combining
marks, for the Latin letters that occur in the vocabulary labels. -/
def stripDiacriticChar : Char → Char
  | 'á' => 'a' | 'à' => 'a' | 'â' => 'a' | 'ã' => 'a' | 'ä' => 'a'
  | 'é' => 'e' | 'è' => 'e' | 'ê' => 'e' | 'ë' => 'e'
  | 'í' => 'i' | 'ì' => 'i' | 'î' => 'i' | 'ï' => 'i'
  | 'ó' => 'o' | 'ò' => 'o' | 'ô' => 'o' | 'õ' => 'o' | 'ö' => 'o'
  | 'ú' => 'u' | 'ù' => 'u' | 'û' => 'u' | 'ü' => 'u'
  | 'ç' => 'c'
  | 'Á' => 'A' | 'À' => 'A' | 'Â' => 'A' | 'Ã' => 'A' | 'Ä' => 'A'
  | 'É' => 'E' | 'È' => 'E' | 'Ê' => 'E' | 'Ë' => 'E'
  | 'Í' => 'I' | 'Ì' => 'I' | 'Î' => 'I' | 'Ï' => 'I'
  | 'Ó' => 'O' | 'Ò' => 'O' | 'Ô' => 'O' | 'Õ' => 'O' | 'Ö' => 'O'
  | 'Ú' => 'U' | 'Ù' => 'U' | 'Û' => 'U' | 'Ü' => 'U'
  | 'Ç' => 'C'
  | c => c

def stripDiacritics (s : String) : String :=
  String.mk (s.toList.map stripDiacriticChar)

/-- Python str.replace with a single-character needle and replacement. -/
def replaceChar (a b : Char) (s : String) : String :=
  String.mk (s.toList.map fun c => if c = a then b else c)

/-- Whether pat is a prefix of hay (character lists). -/
def listStartsWith : List Char → List Char → Bool
  | _, [] => true
  | [], _ :: _ => false
  | c :: cs, p :: ps => c = p && listStartsWith cs ps

/-- Python str.startswith. -/
def strStartsWith (s pat : String) : Bool :=
  listStartsWith s.toList pat.toList

/-- Whether pat occurs as a contiguous sublist of hay; models the Python
substring containment operator on strings. -/
def hasSub : List Char → List Char → Bool
  | [], pat => pat.isEmpty
  | hay@(_ :: rest), pat => listStartsWith hay pat || hasSub rest pat

/-- Python substring containment: pat occurs in s. -/
def strContains (s pat : String) : Bool := hasSub s.toList pat.toList

def isDig (c : Char) : Bool := '0' ≤ c && c ≤ '9'

def digitsToNat (cs : List Char) : Nat :=
  cs.foldl (fun acc c => 10 * acc + (c.toNat - 48)) 0

/-! ## Vocabulary resolver (src/scripts/utils/vocabularies.py)

The loaded CSV table is modelled as an association list from term key to
IRI; Python dict lookup is the first matching key. -/

abbrev VocabTable := List (String × String)

def VocabTable.find (t : VocabTable) (k : String) : Option String :=
  List.lookup k t

/-- The fixed base location used to synthesize theme identifiers
(vocabularies.py line 190). -/
def themesBase : String :=
  "https://dcat-br.github.io/dcat-br/docs/vocabularies/themes/"

/-- The normalized theme slug computed in the themes branch of
convert_to_iri (vocabularies.py lines 178-185): lower-case the stripped
value, drop diacritics, then replace spaces and underscores by hyphens. -/
def themeSlug (value : String) : String :=
  replaceChar '_' '-'
    (replaceChar ' ' '-' (stripDiacritics (pyLower (pyStrip value))))

/-- vocabularies.py convert_to_iri, with the loaded table passed
explicitly in place of the load_vocab call. -/
def convert_to_iri (value : String) (vocab_name : String)
    (vocab : VocabTable) : Option String :=
  if value = "" then none else
  match vocab.find (pyUpper (pyStrip value)) with
  | some uri => some uri
  | none =>
    match vocab.find (pyStrip value) with
    | some uri => some uri
    | none =>
      if vocab_name = "vcr-lu" then
        match vocab.find
            (replaceChar ' ' '-' (replaceChar '_' '-' (pyLower (pyStrip value)))) with
        | some uri => some uri
        | none =>
          match vocab.find
              (replaceChar ' ' '_' (replaceChar '-' '_' (pyLower (pyStrip value)))) with
          | some uri => some uri
          | none => none
      else if vocab_name = "themes" then
        if vocab = [] then none
        else
          match vocab.find (themeSlug value) with
          | some uri => some uri
          | none => some (themesBase ++ themeSlug value)
      else none

/-! ## Vocabulary cache (load_vocab, vocabularies.py lines 86-134)

The process-wide cache is an association list from cache key to table;
the local-file / remote-URL loading (each step degrading to an empty
table on failure) is abstracted as the loadFresh parameter. The loadRan
field records whether control passed the cache check into the load body. -/

abbrev VocabCache := List (String × VocabTable)

structure LoadVocabResult where
  table : VocabTable
  cache : VocabCache
  loadRan : Bool
deriving DecidableEq

def load_vocab (loadFresh : String → VocabTable) (cache : VocabCache)
    (vocab_name : String) (force_reload : Bool) : LoadVocabResult :=
  let cache_key := pyLower vocab_name
  match (if force_reload then none else List.lookup cache_key cache) with
  | some t => ⟨t, cache, false⟩
  | none =>
    let vocab_map := loadFresh cache_key
    if vocab_map = [] then ⟨vocab_map, cache, true⟩
    else ⟨vocab_map, (cache_key, vocab_map) :: cache, true⟩

/-! ## Date normalizer (src/scripts/utils/date_utils.py)

normalize_date: sentinel rejection by lower-cased substring match, then a
day/month/year pattern anchored at both ends, then a year-month-day
pattern anchored at the start only, then a fixed list of strptime
formats. Every candidate is validated as a real calendar date, which
models the datetime constructor raising ValueError. -/

def invalidDatePatterns : List String :=
  ["indisponível", "não encontrado", "inválido", "null", "none", "n/a", "na"]

def isLeapYear (y : Nat) : Bool :=
  y % 4 = 0 && (y % 100 ≠ 0 || y % 400 = 0)

def daysInMonth (y m : Nat) : Nat :=
  if m = 2 then (if isLeapYear y then 29 else 28)
  else if m = 4 || m = 6 || m = 9 || m = 11 then 30
  else 31

/-- The dates accepted by the Python datetime constructor. -/
def datetimeValid (y m d : Nat) : Bool :=
  1 ≤ y && y ≤ 9999 && 1 ≤ m && m ≤ 12 && 1 ≤ d && d ≤ daysInMonth y m

/-- The optional end-anchored time suffix of the Brazilian date pattern:
one or more whitespace characters then HH:MM:SS digits at end of input. -/
def matchBrTimeTail : List Char → Bool
  | [] => true
  | c :: cs =>
    pyWhitespaceChar c &&
    (match cs.dropWhile pyWhitespaceChar with
     | [h1, h2, ':', m1, m2, ':', s1, s2] =>
       isDig h1 && isDig h2 && isDig m1 && isDig m2 && isDig s1 && isDig s2
     | _ => false)

/-- The DD/MM/YYYY pattern of date_utils.py line 46, returning the day,
month and year digit groups. The pattern is anchored at both ends. -/
def matchBrDate (cs : List Char) :
    Option (List Char × List Char × List Char) :=
  match cs with
  | d1 :: d2 :: '/' :: m1 :: m2 :: '/' :: y1 :: y2 :: y3 :: y4 :: rest =>
    if isDig d1 && isDig d2 && isDig m1 && isDig m2 &&
       isDig y1 && isDig y2 && isDig y3 && isDig y4 && matchBrTimeTail rest
    then some ([d1, d2], [m1, m2], [y1, y2, y3, y4])
    else none
  | _ => none

/-- The YYYY-MM-DD pattern of date_utils.py line 58, returning the year,
month and day digit groups. The pattern is anchored at the start only,
so any trailing text after the first ten characters is accepted. -/
def matchIsoDate (cs : List Char) :
    Option (List Char × List Char × List Char) :=
  match cs with
  | y1 :: y2 :: y3 :: y4 :: '-' :: m1 :: m2 :: '-' :: d1 :: d2 :: _ =>
    if isDig y1 && isDig y2 && isDig y3 && isDig y4 &&
       isDig m1 && isDig m2 && isDig d1 && isDig d2
    then some ([y1, y2, y3, y4], [m1, m2], [d1, d2])
    else none
  | _ => none

/-! The strptime fallback loop (date_utils.py lines 70-87). Each format
string is modelled as a token list; numeric directives follow the CPython
strptime field patterns (one or two digits with the documented ranges,
except the year which is exactly four digits); a literal space matches a
run of whitespace; literal characters match case-insensitively. -/

inductive FmtTok
  | fY | fm | fd | fH | fM | fS
  | lit (c : Char)
  | ws
deriving DecidableEq

def strptimeFormats : List (List FmtTok) :=
  [[.fY, .lit '-', .fm, .lit '-', .fd],
   [.fY, .lit '-', .fm, .lit '-', .fd, .ws, .fH, .lit ':', .fM, .lit ':', .fS],
   [.fY, .lit '-', .fm, .lit '-', .fd, .lit 'T', .fH, .lit ':', .fM, .lit ':', .fS],
   [.fd, .lit '/', .fm, .lit '/', .fY],
   [.fd, .lit '/', .fm, .lit '/', .fY, .ws, .fH, .lit ':', .fM, .lit ':', .fS],
   [.fd, .lit '-', .fm, .lit '-', .fY],
   [.fY, .lit '/', .fm, .lit '/', .fd]]

def charVal (c : Char) : Nat := c.toNat - 48

/-- Two-digit candidate of a numeric strptime field with value range
lo..hi. -/
def fieldTwoDigit (lo hi : Nat) : List Char → Option (Nat × List Char)
  | a :: b :: rest =>
    if isDig a && isDig b then
      let n := 10 * charVal a + charVal b
      if lo ≤ n && n ≤ hi then some (n, rest) else none
    else none
  | _ => none

/-- One-digit candidate of a numeric strptime field with value range
lo..hi. -/
def fieldOneDigit (lo hi : Nat) : List Char → Option (Nat × List Char)
  | a :: rest =>
    if isDig a then
      let n := charVal a
      if lo ≤ n && n ≤ hi then some (n, rest) else none
    else none
  | _ => none

/-- The candidates of a numeric strptime field, two-digit alternative
first, matching the alternation order of the CPython field patterns. -/
def fieldCands (lo2 hi2 lo1 hi1 : Nat) (cs : List Char) :
    List (Nat × List Char) :=
  (match fieldTwoDigit lo2 hi2 cs with | some r => [r] | none => []) ++
  (match fieldOneDigit lo1 hi1 cs with | some r => [r] | none => [])

/-- Year field: exactly four digits. -/
def yearCands (cs : List Char) : List (Nat × List Char) :=
  match cs with
  | a :: b :: c :: d :: rest =>
    if isDig a && isDig b && isDig c && isDig d then
      [(charVal a * 1000 + charVal b * 100 + charVal c * 10 + charVal d, rest)]
    else []
  | _ => []

def dayCands (cs : List Char) : List (Nat × List Char) := fieldCands 1 31 1 9 cs

def monthCands (cs : List Char) : List (Nat × List Char) := fieldCands 1 12 1 9 cs

def hourCands (cs : List Char) : List (Nat × List Char) := fieldCands 0 23 0 9 cs

def minSecCands (cs : List Char) : List (Nat × List Char) := fieldCands 0 59 0 9 cs

/-- Backtracking interpretation of one strptime format over the input,
accumulating the year, month and day fields; candidate order models the
leftmost preference of the compiled regex. -/
def runFmt : List FmtTok → List Char → Nat × Nat × Nat →
    List ((Nat × Nat × Nat) × List Char)
  | [], cs, acc => [(acc, cs)]
  | t :: ts, cs, acc =>
    match t with
    | .fY => (yearCands cs).flatMap fun r => runFmt ts r.2 (r.1, acc.2.1, acc.2.2)
    | .fm => (monthCands cs).flatMap fun r => runFmt ts r.2 (acc.1, r.1, acc.2.2)
    | .fd => (dayCands cs).flatMap fun r => runFmt ts r.2 (acc.1, acc.2.1, r.1)
    | .fH => (hourCands cs).flatMap fun r => runFmt ts r.2 acc
    | .fM => (minSecCands cs).flatMap fun r => runFmt ts r.2 acc
    | .fS => (minSecCands cs).flatMap fun r => runFmt ts r.2 acc
    | .lit c =>
      match cs with
      | x :: rest =>
        if pyLowerChar x = pyLowerChar c then runFmt ts rest acc else []
      | [] => []
    | .ws =>
      match cs with
      | x :: rest =>
        if pyWhitespaceChar x then
          runFmt ts (rest.dropWhile pyWhitespaceChar) acc
        else []
      | [] => []

/-- strptime for one format: the regex takes its leftmost match, then
strptime rejects the input when unconverted data remains. -/
def strptimeYmd (toks : List FmtTok) (cs : List Char) :
    Option (Nat × Nat × Nat) :=
  match runFmt toks cs (0, 0, 0) with
  | [] => none
  | (acc, rest) :: _ => if rest = [] then some acc else none

def pad2 (n : Nat) : String :=
  if n < 10 then "0" ++ toString n else toString n

def pad4 (n : Nat) : String :=
  if n < 10 then "000" ++ toString n
  else if n < 100 then "00" ++ toString n
  else if n < 1000 then "0" ++ toString n
  else toString n

/-- The strptime fallback loop: first format that both matches and forms
a valid calendar date wins; a match with an impossible date raises
ValueError inside strptime and the loop continues. -/
def tryStrptimeFormats (cs : List Char) : List (List FmtTok) → Option String
  | [] => none
  | f :: fs =>
    match strptimeYmd f cs with
    | some (y, m, d) =>
      if datetimeValid y m d then
        some (pad4 y ++ "-" ++ pad2 m ++ "-" ++ pad2 d)
      else tryStrptimeFormats cs fs
    | none => tryStrptimeFormats cs fs

/-- date_utils.py normalize_date. -/
def normalize_date (date_str : String) : Option String :=
  if date_str = "" then none else
  let s := pyStrip date_str
  let date_lower := pyLower s
  if invalidDatePatterns.any (fun p => strContains date_lower p) then none
  else
    match matchBrDate s.toList with
    | some (dd, mm, yy) =>
      if datetimeValid (digitsToNat yy) (digitsToNat mm) (digitsToNat dd) then
        some (String.mk yy ++ "-" ++ String.mk mm ++ "-" ++ String.mk dd)
      else none
    | none =>
      match matchIsoDate s.toList with
      | some (yy, mm, dd) =>
        if datetimeValid (digitsToNat yy) (digitsToNat mm) (digitsToNat dd) then
          some (String.mk yy ++ "-" ++ String.mk mm ++ "-" ++ String.mk dd)
        else none
      | none => tryStrptimeFormats s.toList strptimeFormats

/-! ## Python float parsing (for the byte-size block of api_to_rdf.py)

float(str) semantics: strip whitespace, optional sign, the words inf,
infinity and nan case-insensitively, or a decimal literal with optional
fraction and exponent and with underscores allowed between digits. A
finite result fin m e denotes the exact value m times ten to the e; IEEE
rounding never changes the sign or zero-ness of the values compared
against zero here. -/

inductive PyFloat
  | fin (m : Int) (e : Int)
  | inf (neg : Bool)
  | nan
deriving DecidableEq

def negPyFloat : PyFloat → PyFloat
  | .fin m e => .fin (-m) e
  | .inf b => .inf (!b)
  | .nan => .nan

/-- Python float comparison with zero, as used by the size check. -/
def pyFloatPos : PyFloat → Bool
  | .fin m _ => if 0 < m then true else false
  | .inf neg => !neg
  | .nan => false

/-- Scans [0-9] ( underscore? [0-9] )*, dropping underscores; returns the
digits and the remaining input. -/
def scanMoreDigits : List Char → List Char → List Char × List Char
  | '_' :: d :: rest, acc =>
    if isDig d then scanMoreDigits rest (d :: acc)
    else (acc.reverse, '_' :: d :: rest)
  | d :: rest, acc =>
    if isDig d then scanMoreDigits rest (d :: acc)
    else (acc.reverse, d :: rest)
  | [], acc => (acc.reverse, [])

def scanDigitsU (cs : List Char) : Option (List Char × List Char) :=
  match cs with
  | c :: rest => if isDig c then some (scanMoreDigits rest [c]) else none
  | [] => none

/-- The decimal-literal grammar of float(str): optional integer digits,
optional point with optional fraction digits (at least one digit overall),
optional exponent with mandatory digits, nothing left over. -/
def pyFloatNumber (cs : List Char) : Option (Int × Int) :=
  let ip : List Char × List Char :=
    match scanDigitsU cs with
    | some r => r
    | none => ([], cs)
  let fp : List Char × List Char :=
    match ip.2 with
    | '.' :: r1 =>
      (match scanDigitsU r1 with
       | some r => r
       | none => ([], r1))
    | _ => ([], ip.2)
  if ip.1 = [] && fp.1 = [] then none
  else
    let m : Int := (digitsToNat (ip.1 ++ fp.1) : Int)
    let fracLen : Int := (fp.1.length : Int)
    match fp.2 with
    | [] => some (m, -fracLen)
    | e :: r2 =>
      if e = 'e' || e = 'E' then
        let signedTail : Bool × List Char :=
          match r2 with
          | '+' :: r3 => (false, r3)
          | '-' :: r3 => (true, r3)
          | _ => (false, r2)
        match scanDigitsU signedTail.2 with
        | some (ds, []) =>
          let ex : Int := (digitsToNat ds : Int)
          if signedTail.1 then some (m, -ex - fracLen)
          else some (m, ex - fracLen)
        | _ => none
      else none

def pyFloatCore (cs : List Char) : Option PyFloat :=
  let low := cs.map pyLowerChar
  if low = "inf".toList || low = "infinity".toList then some (.inf false)
  else if low = "nan".toList then some .nan
  else (pyFloatNumber cs).map fun r => .fin r.1 r.2

/-- Python float(s) on a string, as an Option in place of ValueError. -/
def pyFloatOfString (s : String) : Option PyFloat :=
  match (pyStrip s).toList with
  | '+' :: rest => pyFloatCore rest
  | '-' :: rest => (pyFloatCore rest).map negPyFloat
  | cs => pyFloatCore cs

/-! ## Graph model (api_to_rdf.py)

Triples as emitted by the g.add calls; literal typing is carried on the
object node. Predicates are the full IRIs of the bound namespaces. -/

inductive Node
  | iri (s : String)
  | blank (n : Nat)
  | lit (s : String)
  | litLang (s lang : String)
  | litBool (b : Bool)
  | litDate (s : String)
  | litDecimal (v : PyFloat)
deriving DecidableEq

structure Triple where
  subj : Node
  pred : String
  obj : Node
deriving DecidableEq

def rdfType : String := "http://www.w3.org/1999/02/22-rdf-syntax-ns#type"

def dctAccrualPeriodicity : String := "http://purl.org/dc/terms/accrualPeriodicity"

def dctAccessRights : String := "http://purl.org/dc/terms/accessRights"

def dctLicense : String := "http://purl.org/dc/terms/license"

def dctFormat : String := "http://purl.org/dc/terms/format"

def dctType : String := "http://purl.org/dc/terms/type"

def dctFrequencyClass : String := "http://purl.org/dc/terms/Frequency"

def dctRightsStatementClass : String := "http://purl.org/dc/terms/RightsStatement"

def dctMediaTypeClass : String := "http://purl.org/dc/terms/MediaType"

def dctMediaTypeOrExtentClass : String := "http://purl.org/dc/terms/MediaTypeOrExtent"

def dcatMediaType : String := "http://www.w3.org/ns/dcat#mediaType"

def dcatByteSize : String := "http://www.w3.org/ns/dcat#byteSize"

def dcatTheme : String := "http://www.w3.org/ns/dcat#theme"

def skosConcept : String := "http://www.w3.org/2004/02/skos/core#Concept"

def skosInScheme : String := "http://www.w3.org/2004/02/skos/core#inScheme"

def dcatbrDadosRacaEtnia : String := "http://purl.org/dcat-br/dadosRacaEtnia"

def dcatbrDadosGenero : String := "http://purl.org/dcat-br/dadosGenero"

def vcrFrScheme : String := "https://dcat-br.github.io/dcat-br/docs/vocabularies/VCR-FR"

def seiScheme : String := "https://dcat-br.github.io/dcat-br/docs/vocabularies/SEI/esquema"

def formatoScheme : String := "https://dcat-br.github.io/dcat-br/docs/vocabularies/formato/esquema"

def tipoRecursoScheme : String := "https://dcat-br.github.io/dcat-br/docs/vocabularies/tipo-recurso/"

def themesScheme : String := "https://dcat-br.github.io/dcat-br/docs/vocabularies/themes/"

/-! ## Loosely-typed record values -/

inductive PyVal
  | vnone
  | vbool (b : Bool)
  | vstr (s : String)
deriving DecidableEq

/-- Python truthiness of the record values. -/
def truthy : PyVal → Bool
  | .vnone => false
  | .vbool b => b
  | .vstr s => s ≠ ""

/-- Python str() of the record values. -/
def pyStr : PyVal → String
  | .vnone => "None"
  | .vbool b => if b then "True" else "False"
  | .vstr s => s

/-! ## api_to_rdf.py attribute emission blocks

Each block below embeds one contiguous region of
ApiToRdfService.api_to_rdf, with the subject node and the loaded
vocabulary table passed explicitly. The triples appear in the order of
the g.add calls. -/

/-- Lines 82-95: accrual periodicity, resolved through the freq
vocabulary, with a plain-literal fallback. -/
def periodicityTriples (ds : Node) (periodicidade : Option String)
    (vocab : VocabTable) : List Triple :=
  match periodicidade with
  | none => []
  | some s =>
    if s = "" then [] else
    match convert_to_iri s "freq" vocab with
    | some iri =>
      [⟨ds, dctAccrualPeriodicity, .iri iri⟩,
       ⟨.iri iri, rdfType, .iri dctFrequencyClass⟩,
       ⟨.iri iri, rdfType, .iri skosConcept⟩,
       ⟨.iri iri, skosInScheme, .iri vcrFrScheme⟩]
    | none => [⟨ds, dctAccrualPeriodicity, .lit s⟩]

/-- Lines 103-113: legal observance (access rights), resolved through
the sei vocabulary; nothing is emitted when resolution fails. -/
def accessRightsTriples (ds : Node) (observancia_legal : Option String)
    (vocab : VocabTable) : List Triple :=
  match observancia_legal with
  | none => []
  | some s =>
    if s = "" then [] else
    match convert_to_iri s "sei" vocab with
    | some iri =>
      [⟨ds, dctAccessRights, .iri iri⟩,
       ⟨.iri iri, rdfType, .iri dctRightsStatementClass⟩,
       ⟨.iri iri, rdfType, .iri skosConcept⟩,
       ⟨.iri iri, skosInScheme, .iri seiScheme⟩]
    | none => []

/-- Lines 131-140: license; a value that is already a full network
address is used verbatim, otherwise it is resolved through the vcr-lu
vocabulary, and nothing is emitted when resolution fails. -/
def licenseTriples (ds : Node) (license_id : Option String)
    (vocab : VocabTable) : List Triple :=
  match license_id with
  | none => []
  | some s =>
    if s = "" then [] else
    if strStartsWith s "http://" || strStartsWith s "https://" then
      [⟨ds, dctLicense, .iri s⟩]
    else
      match convert_to_iri s "vcr-lu" vocab with
      | some iri => [⟨ds, dctLicense, .iri iri⟩]
      | none => []

/-- Lines 186-195 and 197-206: the DCAT-BR demographic flags. A native
boolean is taken as is; any other present value is compared, lower-cased
through str(), against the word true. -/
def coerceBoolFlag (v : PyVal) : Bool :=
  match v with
  | .vbool b => b
  | _ => pyLower (pyStr v) == "true"

def dadosFlagTriples (ds : Node) (pred : String) (v : PyVal) : List Triple :=
  match v with
  | .vnone => []
  | _ => [⟨ds, pred, .litBool (coerceBoolFlag v)⟩]

/-- Lines 231-243: one theme entry, resolved through the themes
vocabulary. -/
def themeTriples (ds : Node) (theme_value : Option String)
    (vocab : VocabTable) : List Triple :=
  match theme_value with
  | none => []
  | some s =>
    if s = "" then [] else
    match convert_to_iri s "themes" vocab with
    | some iri =>
      [⟨ds, dcatTheme, .iri iri⟩,
       ⟨.iri iri, rdfType, .iri skosConcept⟩,
       ⟨.iri iri, skosInScheme, .iri themesScheme⟩]
    | none => []

/-- Lines 264-281: one resource format, resolved through the formato
vocabulary, with a two-triple plain-literal fallback. -/
def formatTriples (dist : Node) (resource_format : Option String)
    (vocab : VocabTable) : List Triple :=
  match resource_format with
  | none => []
  | some s =>
    if s = "" then [] else
    match convert_to_iri s "formato" vocab with
    | some iri =>
      [⟨dist, dctFormat, .iri iri⟩,
       ⟨dist, dcatMediaType, .iri iri⟩,
       ⟨.iri iri, rdfType, .iri dctMediaTypeClass⟩,
       ⟨.iri iri, rdfType, .iri dctMediaTypeOrExtentClass⟩,
       ⟨.iri iri, rdfType, .iri skosConcept⟩,
       ⟨.iri iri, skosInScheme, .iri formatoScheme⟩]
    | none =>
      [⟨dist, dctFormat, .lit s⟩,
       ⟨dist, dcatMediaType, .lit s⟩]

/-- Lines 299-311: one resource type, resolved through the tipo-recurso
vocabulary, with a plain-literal fallback. -/
def resourceTypeTriples (dist : Node) (resource_type : Option String)
    (vocab : VocabTable) : List Triple :=
  match resource_type with
  | none => []
  | some s =>
    if s = "" then [] else
    match convert_to_iri s "tipo-recurso" vocab with
    | some iri =>
      [⟨dist, dctType, .iri iri⟩,
       ⟨.iri iri, rdfType, .iri skosConcept⟩,
       ⟨.iri iri, skosInScheme, .iri tipoRecursoScheme⟩]
    | none => [⟨dist, dctType, .lit s⟩]

/-- Lines 322-333: the byte size of one resource. The size string is
parsed with float(); a positive parse yields one typed decimal triple, a
non-positive parse yields nothing, and a failed parse falls back to a
plain literal unless the value is empty or strips to the single digit
zero. -/
def byteSizeTriples (dist : Node) (resource_size : Option String) : List Triple :=
  match resource_size with
  | none => []
  | some s =>
    match pyFloatOfString s with
    | some v =>
      if pyFloatPos v then [⟨dist, dcatByteSize, .litDecimal v⟩] else []
    | none =>
      if s = "" then []
      else if pyStrip s = "0" then []
      else [⟨dist, dcatByteSize, .lit s⟩]

/-! ## The extras helper (api_to_rdf.py lines 17-29)

_get_extra_value and the a-or-b lookup pattern of line 82. The record
top level is an association list; the extras array holds entries whose
key and value fields are themselves loosely typed. -/

structure ExtraEntry where
  key : PyVal
  value : PyVal
deriving DecidableEq

structure ApiRecord where
  top : List (String × PyVal)
  extras : List ExtraEntry
deriving DecidableEq

def dictHas (d : List (String × PyVal)) (k : String) : Bool :=
  (List.lookup k d).isSome

def dictGet (d : List (String × PyVal)) (k : String) : PyVal :=
  (List.lookup k d).getD .vnone

def findExtra (extras : List ExtraEntry) (key : String) : PyVal :=
  match extras with
  | [] => .vnone
  | e :: rest => if e.key = PyVal.vstr key then e.value else findExtra rest key

/-- ApiToRdfService._get_extra_value. -/
def getExtraValue (data : ApiRecord) (key : String) : PyVal :=
  if dictHas data.top key then dictGet data.top key
  else if data.extras = [] then .vnone
  else findExtra data.extras key

/-- The lookup pattern data.get(key) or self._get_extra_value(data, key)
used for the canonical attributes (api_to_rdf.py line 82). -/
def lookupAttr (data : ApiRecord) (key : String) : PyVal :=
  let v := dictGet data.top key
  if truthy v then v else getExtraValue data key

/-! ## Validation distiller parse stage (src/scripts/validate_rdf.py)

The rdflib parse call is abstracted as a function from format name to
outcome: an exception message or a parsed graph size. The fallback loop
of lines 43-62 runs only inside the except branch of the first attempt;
tryFallback threads the last exception message exactly as the loop
variable parse_error does. -/

inductive ParseAttempt
  | perr (msg : String)
  | pok (triples : Nat)
deriving DecidableEq

abbrev RdfParse := String → ParseAttempt

def fallbackFormats : List String := ["turtle", "xml", "json-ld", "ntriples", "n3"]

/-- Python list.remove of the first occurrence, guarded by membership. -/
def removeFirst (x : String) : List String → List String
  | [] => []
  | y :: ys => if y = x then ys else y :: removeFirst x ys

inductive ParseStage
  | parsed (fmt : String)
  | failed (lastErr : String)
deriving DecidableEq

/-- Whether one parse attempt yields a non-empty graph. -/
def goodAttempt : ParseAttempt → Bool
  | .pok n => if 0 < n then true else false
  | .perr _ => false

def tryFallback (parse : RdfParse) : List String → String → ParseStage
  | [], lastE => .failed lastE
  | f :: fs, lastE =>
    match parse f with
    | .pok n => if 0 < n then .parsed f else tryFallback parse fs lastE
    | .perr e => tryFallback parse fs e

/-- Lines 36-62 of validate_rdf: the first attempt uses the guessed
format; only an exception enters the fallback loop, and a successful
parse of an empty graph leaves parse_error at None. -/
def parseStage (parse : RdfParse) (rdf_format : String) : ParseStage :=
  match parse rdf_format with
  | .pok n => if 0 < n then .parsed rdf_format else .failed "None"
  | .perr e => tryFallback parse (removeFirst rdf_format fallbackFormats) e

structure ValidationOutcome where
  conforms : Bool
  errors : List String
  warnings : List String
deriving DecidableEq

/-- Line 65: the early return taken when no attempt was accepted. -/
def parseFailureReturn (rdf_format lastErr : String) : ValidationOutcome :=
  ⟨false,
   ["Error parsing RDF file. Detected format: " ++ rdf_format ++
    ". Error: " ++ lastErr],
   []⟩

/-- The format accepted by the parse stage, when one was accepted. -/
def acceptedFormat : ParseStage → Option String
  | .parsed f => some f
  | .failed _ => none

/-- A parse oracle for which the guessed format raises and the xml
fallback yields a non-empty graph. -/
def fallbackDemoParse : RdfParse :=
  fun fmt => if fmt = "xml" then .pok 4 else .perr "boom"

/-! ## Helper lemmas -/

/-- convert_to_iri specialized to the themes category. -/
theorem convert_to_iri_themes (value : String) (vocab : VocabTable) :
    convert_to_iri value "themes" vocab =
      (if value = "" then none else
       match vocab.find (pyUpper (pyStrip value)) with
       | some uri => some uri
       | none =>
         match vocab.find (pyStrip value) with
         | some uri => some uri
         | none =>
           if vocab = [] then none
           else
             match vocab.find (themeSlug value) with
             | some uri => some uri
             | none => some (themesBase ++ themeSlug value)) := rfl

/-- The fallback loop accepts exactly the first format of the sequence
whose parse yields a non-empty graph. -/
theorem acceptedFormat_tryFallback (parse : RdfParse) (fs : List String) (e : String) :
    acceptedFormat (tryFallback parse fs e)
      = fs.find? (fun f => goodAttempt (parse f)) := by
  induction fs generalizing e with
  | nil => rfl
  | cons f fs ih =>
    simp only [tryFallback, List.find?]
    cases hp : parse f with
    | pok n =>
      by_cases hn : 0 < n
      · simp [goodAttempt, hp, hn, acceptedFormat]
      · simp [goodAttempt, hp, hn, ih]
    | perr e2 => simp [goodAttempt, hp, ih]

/-! ## Claim C1 -/

/-- C1 (counterexample): resolving the non-empty theme value
Saúde Pública against an empty theme table returns none, so theme
resolution can fail even though a non-empty value was supplied. -/
theorem C1_empty_table_cex :
    convert_to_iri "Saúde Pública" "themes" ([] : VocabTable) = none := by decide

/-- C1 (amended): provided the loaded theme table is non-empty, theme
resolution of a non-empty value never returns none; when the value
(upper-cased, exact, or diacritics-stripped hyphen-normalized) is not in
the table, the result is the fixed base location followed by the
normalized slug, and the slug of Saúde Pública is saude-publica. -/
theorem C1_theme_resolution (vocab : VocabTable) (value : String)
    (hvoc : vocab ≠ []) (hval : value ≠ "") :
    (convert_to_iri value "themes" vocab).isSome = true ∧
    (vocab.find (pyUpper (pyStrip value)) = none →
     vocab.find (pyStrip value) = none →
     vocab.find (themeSlug value) = none →
     convert_to_iri value "themes" vocab = some (themesBase ++ themeSlug value)) ∧
    themeSlug "Saúde Pública" = "saude-publica" := by
  refine ⟨?_, ?_, by decide⟩
  · rw [convert_to_iri_themes, if_neg hval]
    cases h1 : vocab.find (pyUpper (pyStrip value)) with
    | some u => rfl
    | none =>
      cases h2 : vocab.find (pyStrip value) with
      | some u => rfl
      | none =>
        rw [if_neg hvoc]
        cases h3 : vocab.find (themeSlug value) with
        | some u => rfl
        | none => rfl
  · intro h1 h2 h3
    rw [convert_to_iri_themes, if_neg hval, h1, h2, if_neg hvoc, h3]

/-- C1 (witness): the amended theorem applied to Saúde Pública and a
non-empty table that does not contain it. -/
theorem C1_theme_resolution_witness :
    (convert_to_iri "Saúde Pública" "themes" [("x", "y")]).isSome = true ∧
    convert_to_iri "Saúde Pública" "themes" [("x", "y")]
      = some (themesBase ++ themeSlug "Saúde Pública") := by
  have h := C1_theme_resolution [("x", "y")] "Saúde Pública" (by decide) (by decide)
  exact ⟨h.1, h.2.1 (by decide) (by decide) (by decide)⟩

/-! ## Claim C7 -/

/-- C7 (counterexample): with a table registering the exact value Mensal
under iriA and its upper-cased form MENSAL under iriB, resolution
returns iriB, not the identifier registered under the exact value. -/
theorem C7_order_cex :
    convert_to_iri "Mensal" "freq" [("Mensal", "iriA"), ("MENSAL", "iriB")]
      = some "iriB" ∧
    ¬ (convert_to_iri "Mensal" "freq" [("Mensal", "iriA"), ("MENSAL", "iriB")]
      = some "iriA") := by decide

/-- C7 (amended): for every value and category the resolver tries the
upper-cased stripped value first and the exact stripped value second, so
when the table maps both forms to different identifiers the upper-cased
lookup wins. -/
theorem C7_resolution_order (vocab : VocabTable) (name value u : String)
    (hval : value ≠ "") :
    (vocab.find (pyUpper (pyStrip value)) = some u →
      convert_to_iri value name vocab = some u) ∧
    (vocab.find (pyUpper (pyStrip value)) = none →
     vocab.find (pyStrip value) = some u →
      convert_to_iri value name vocab = some u) := by
  constructor
  · intro h1
    unfold convert_to_iri
    rw [if_neg hval, h1]
  · intro h1 h2
    unfold convert_to_iri
    rw [if_neg hval, h1, h2]

/-- C7 (witness): the amended theorem applied to a concrete table holding
only the upper-cased key, and to one holding only the exact key. -/
theorem C7_resolution_order_witness :
    convert_to_iri "Mensal" "freq" [("MENSAL", "iriB")] = some "iriB" ∧
    convert_to_iri "Qx z" "freq" [("Qx z", "iriC")] = some "iriC" := by
  constructor
  · exact (C7_resolution_order [("MENSAL", "iriB")] "freq" "Mensal" "iriB"
      (by decide)).1 (by decide)
  · exact (C7_resolution_order [("Qx z", "iriC")] "freq" "Qx z" "iriC"
      (by decide)).2 (by decide) (by decide)

/-! ## Claim C2 -/

/-- C2 (counterexample): the demographic-flag string yes, which is
neither true nor false, is coerced to a typed boolean literal false
rather than being kept as a genuine value. -/
theorem C2_flag_coercion_cex :
    dadosFlagTriples (Node.iri "d") dcatbrDadosRacaEtnia (PyVal.vstr "yes")
      = [⟨Node.iri "d", dcatbrDadosRacaEtnia, Node.litBool false⟩] ∧
    Node.litBool false ≠ Node.lit "yes" ∧
    Node.litBool false ≠ Node.litLang "yes" "pt-BR" := by decide

/-- C2 (amended): a present demographic flag always yields one typed
boolean triple: a native boolean is taken as is, and every other value
is coerced to the boolean result of comparing its lower-cased string
form with the word true, so any string other than the word true,
compared case-insensitively, is coerced to boolean false. -/
theorem C2_flag_coercion (ds : Node) (p : String) :
    (∀ b, dadosFlagTriples ds p (PyVal.vbool b) = [⟨ds, p, Node.litBool b⟩]) ∧
    (∀ s, dadosFlagTriples ds p (PyVal.vstr s)
      = [⟨ds, p, Node.litBool (pyLower s == "true")⟩]) ∧
    dadosFlagTriples ds p PyVal.vnone = [] ∧
    coerceBoolFlag (PyVal.vstr "True") = true ∧
    coerceBoolFlag (PyVal.vstr "FALSE") = false ∧
    coerceBoolFlag (PyVal.vstr "yes") = false := by
  exact ⟨fun b => rfl, fun s => rfl, rfl, by decide, by decide, by decide⟩

/-! ## Claim C3 -/

/-- C3 (counterexample): the size string -5 parses as a number that is
not strictly positive, and the builder emits no byte-size triple at all,
not the plain literal the claim requires for every non-positive raw
value other than the exact string 0. -/
theorem C3_size_cex :
    byteSizeTriples (Node.iri "dist") (some "-5") = [] ∧
    ([] : List Triple) ≠ [⟨Node.iri "dist", dcatByteSize, Node.lit "-5"⟩] := by
  decide

/-- C3 (amended): a byte-size triple is a typed decimal literal exactly
when the value parses as a number strictly greater than zero; a value
that parses as a number not greater than zero yields no byte-size triple
at all; a value that fails to parse yields the raw value as a plain
literal unless it is empty or strips to the single digit zero; size 0
yields no triple and size 1500 yields one typed triple valued 1500. -/
theorem C3_byte_size (dist : Node) (s : String) :
    (∀ v, pyFloatOfString s = some v → pyFloatPos v = true →
      byteSizeTriples dist (some s) = [⟨dist, dcatByteSize, Node.litDecimal v⟩]) ∧
    (∀ v, pyFloatOfString s = some v → pyFloatPos v = false →
      byteSizeTriples dist (some s) = []) ∧
    (pyFloatOfString s = none → s ≠ "" → pyStrip s ≠ "0" →
      byteSizeTriples dist (some s) = [⟨dist, dcatByteSize, Node.lit s⟩]) ∧
    (pyFloatOfString s = none → pyStrip s = "0" →
      byteSizeTriples dist (some s) = []) ∧
    (s = "" → byteSizeTriples dist (some s) = []) ∧
    byteSizeTriples dist (some "0") = [] ∧
    byteSizeTriples dist (some "1500")
      = [⟨dist, dcatByteSize, Node.litDecimal (PyFloat.fin 1500 0)⟩] := by
  refine ⟨?_, ?_, ?_, ?_, ?_, rfl, rfl⟩
  · intro v h hpos
    simp [byteSizeTriples, h, hpos]
  · intro v h hpos
    simp [byteSizeTriples, h, hpos]
  · intro h hs h0
    simp only [byteSizeTriples, h, if_neg hs, if_neg h0]
  · intro h h0
    rcases eq_or_ne s "" with hs | hs
    · subst hs
      rfl
    · simp only [byteSizeTriples, h, if_neg hs, if_pos h0]
  · intro hs
    subst hs
    rfl

/-- C3 (witness): the amended theorem applied to a positive decimal, and
to a non-numeric string. -/
theorem C3_byte_size_witness :
    byteSizeTriples (Node.iri "d") (some "2.5")
      = [⟨Node.iri "d", dcatByteSize, Node.litDecimal (PyFloat.fin 25 (-1))⟩] ∧
    byteSizeTriples (Node.iri "d") (some "x0")
      = [⟨Node.iri "d", dcatByteSize, Node.lit "x0"⟩] := by
  constructor
  · exact (C3_byte_size (Node.iri "d") "2.5").1 (PyFloat.fin 25 (-1))
      (by decide) (by decide)
  · exact (C3_byte_size (Node.iri "d") "x0").2.2.1 (by decide) (by decide) (by decide)

/-! ## Claim C4 -/

/-- C4 (counterexample): a present legal-basis value that fails
vocabulary resolution yields no access-rights triple at all, not the
plain literal the claim requires. -/
theorem C4_fallback_cex :
    accessRightsTriples (Node.iri "d") (some "Lei X") ([] : VocabTable) = [] ∧
    ([] : List Triple) ≠ [⟨Node.iri "d", dctAccessRights, Node.lit "Lei X"⟩] := by
  decide

/-- C4 (amended): of the vocabulary-bound attributes other than license,
periodicity, format and resource type fall back to plain literal triples
on the corresponding predicates when resolution fails, but legal basis
emits nothing on failure. -/
theorem C4_literal_fallback (ds : Node) (s : String) (vocab : VocabTable)
    (hs : s ≠ "") :
    (convert_to_iri s "freq" vocab = none →
      periodicityTriples ds (some s) vocab
        = [⟨ds, dctAccrualPeriodicity, Node.lit s⟩]) ∧
    (convert_to_iri s "formato" vocab = none →
      formatTriples ds (some s) vocab
        = [⟨ds, dctFormat, Node.lit s⟩, ⟨ds, dcatMediaType, Node.lit s⟩]) ∧
    (convert_to_iri s "tipo-recurso" vocab = none →
      resourceTypeTriples ds (some s) vocab = [⟨ds, dctType, Node.lit s⟩]) ∧
    (convert_to_iri s "sei" vocab = none →
      accessRightsTriples ds (some s) vocab = []) := by
  refine ⟨?_, ?_, ?_, ?_⟩
  · intro h
    simp only [periodicityTriples, if_neg hs, h]
  · intro h
    simp only [formatTriples, if_neg hs, h]
  · intro h
    simp only [resourceTypeTriples, if_neg hs, h]
  · intro h
    simp only [accessRightsTriples, if_neg hs, h]

/-- C4 (witness): the amended theorem applied to a value that no table
resolves. -/
theorem C4_literal_fallback_witness :
    periodicityTriples (Node.iri "d") (some "X") ([] : VocabTable)
      = [⟨Node.iri "d", dctAccrualPeriodicity, Node.lit "X"⟩] ∧
    accessRightsTriples (Node.iri "d") (some "X") ([] : VocabTable) = [] := by
  constructor
  · exact (C4_literal_fallback (Node.iri "d") "X" [] (by decide)).1 (by decide)
  · exact (C4_literal_fallback (Node.iri "d") "X" [] (by decide)).2.2.2 (by decide)

/-! ## Claim C5 -/

/-- C5 (counterexample): a license value that resolves through the
license vocabulary yields exactly one triple whose predicate is the
license predicate, which differs from both the type predicate and the
scheme-membership predicate, so the resolved license identifier carries
no type and no scheme-membership triples. -/
theorem C5_license_cex :
    licenseTriples (Node.iri "d") (some "cc-by") [("cc-by", "L")]
      = [⟨Node.iri "d", dctLicense, Node.iri "L"⟩] ∧
    convert_to_iri "cc-by" "vcr-lu" [("cc-by", "L")] = some "L" ∧
    dctLicense ≠ rdfType ∧
    dctLicense ≠ skosInScheme := by decide

/-- C5 (amended): every vocabulary-bound property value that resolves to
a canonical identifier, except license, also carries an explicit concept
type triple and a scheme-membership triple for that identifier; a
resolved license yields only the single license triple. -/
theorem C5_concept_scheme_triples (ds : Node) (s iri : String)
    (vocab : VocabTable) (hs : s ≠ "") :
    (convert_to_iri s "freq" vocab = some iri →
      Triple.mk (Node.iri iri) rdfType (Node.iri skosConcept)
          ∈ periodicityTriples ds (some s) vocab ∧
      Triple.mk (Node.iri iri) skosInScheme (Node.iri vcrFrScheme)
          ∈ periodicityTriples ds (some s) vocab) ∧
    (convert_to_iri s "sei" vocab = some iri →
      Triple.mk (Node.iri iri) rdfType (Node.iri skosConcept)
          ∈ accessRightsTriples ds (some s) vocab ∧
      Triple.mk (Node.iri iri) skosInScheme (Node.iri seiScheme)
          ∈ accessRightsTriples ds (some s) vocab) ∧
    (convert_to_iri s "formato" vocab = some iri →
      Triple.mk (Node.iri iri) rdfType (Node.iri skosConcept)
          ∈ formatTriples ds (some s) vocab ∧
      Triple.mk (Node.iri iri) skosInScheme (Node.iri formatoScheme)
          ∈ formatTriples ds (some s) vocab) ∧
    (convert_to_iri s "tipo-recurso" vocab = some iri →
      Triple.mk (Node.iri iri) rdfType (Node.iri skosConcept)
          ∈ resourceTypeTriples ds (some s) vocab ∧
      Triple.mk (Node.iri iri) skosInScheme (Node.iri tipoRecursoScheme)
          ∈ resourceTypeTriples ds (some s) vocab) ∧
    (convert_to_iri s "themes" vocab = some iri →
      Triple.mk (Node.iri iri) rdfType (Node.iri skosConcept)
          ∈ themeTriples ds (some s) vocab ∧
      Triple.mk (Node.iri iri) skosInScheme (Node.iri themesScheme)
          ∈ themeTriples ds (some s) vocab) ∧
    (convert_to_iri s "vcr-lu" vocab = some iri →
     strStartsWith s "http://" = false →
     strStartsWith s "https://" = false →
      licenseTriples ds (some s) vocab = [⟨ds, dctLicense, Node.iri iri⟩]) := by
  refine ⟨?_, ?_, ?_, ?_, ?_, ?_⟩
  · intro h
    simp only [periodicityTriples, if_neg hs, h]
    exact ⟨by simp, by simp⟩
  · intro h
    simp only [accessRightsTriples, if_neg hs, h]
    exact ⟨by simp, by simp⟩
  · intro h
    simp only [formatTriples, if_neg hs, h]
    exact ⟨by simp, by simp⟩
  · intro h
    simp only [resourceTypeTriples, if_neg hs, h]
    exact ⟨by simp, by simp⟩
  · intro h
    simp only [themeTriples, if_neg hs, h]
    exact ⟨by simp, by simp⟩
  · intro h h1 h2
    simp only [licenseTriples, if_neg hs, h1, h2, Bool.or_self, Bool.false_eq_true,
      if_false, h]

/-- C5 (witness): the amended theorem applied to a frequency value that
resolves, and to a license value that resolves. -/
theorem C5_concept_scheme_triples_witness :
    Triple.mk (Node.iri "F") skosInScheme (Node.iri vcrFrScheme)
      ∈ periodicityTriples (Node.iri "d") (some "Mensal") [("MENSAL", "F")] ∧
    licenseTriples (Node.iri "d") (some "cc0") [("cc0", "L")]
      = [⟨Node.iri "d", dctLicense, Node.iri "L"⟩] := by
  constructor
  · exact ((C5_concept_scheme_triples (Node.iri "d") "Mensal" "F" [("MENSAL", "F")]
      (by decide)).1 (by decide)).2
  · exact (C5_concept_scheme_triples (Node.iri "d") "cc0" "L" [("cc0", "L")]
      (by decide)).2.2.2.2.2 (by decide) (by decide) (by decide)

/-! ## Claim C6 -/

/-- C6 (counterexample): when the load yields an empty table, the empty
result is not cached, and a subsequent resolution call for the same
category runs the load again. -/
theorem C6_empty_not_cached_cex :
    (load_vocab (fun _ => []) [] "freq" false).cache = [] ∧
    (load_vocab (fun _ => []) [] "freq" false).loadRan = true ∧
    (load_vocab (fun _ => [])
        ((load_vocab (fun _ => []) [] "freq" false).cache) "freq" false).loadRan
      = true := ⟨rfl, rfl, rfl⟩

/-- C6 (amended): absent a forced reload, a cached category is served
without rerunning the load; a load yielding a non-empty table is cached,
and a repeat call then serves the cache without running the load; but a
load yielding an empty table leaves the cache unchanged, so a subsequent
call for the same category reruns the load. -/
theorem C6_cache_once (loadFresh : String → VocabTable) (cache : VocabCache)
    (name : String) :
    (∀ t, List.lookup (pyLower name) cache = some t →
      load_vocab loadFresh cache name false = ⟨t, cache, false⟩) ∧
    (List.lookup (pyLower name) cache = none →
     loadFresh (pyLower name) ≠ [] →
      (load_vocab loadFresh cache name false).cache
        = (pyLower name, loadFresh (pyLower name)) :: cache ∧
      (load_vocab loadFresh
          (load_vocab loadFresh cache name false).cache name false).loadRan
        = false) ∧
    (List.lookup (pyLower name) cache = none →
     loadFresh (pyLower name) = [] →
      (load_vocab loadFresh cache name false).cache = cache ∧
      (load_vocab loadFresh cache name false).loadRan = true ∧
      (load_vocab loadFresh
          (load_vocab loadFresh cache name false).cache name false).loadRan
        = true) := by
  refine ⟨?_, ?_, ?_⟩
  · intro t h
    simp only [load_vocab, if_neg (Bool.false_ne_true), h]
  · intro h hne
    have h1 : load_vocab loadFresh cache name false
        = ⟨loadFresh (pyLower name),
           (pyLower name, loadFresh (pyLower name)) :: cache, true⟩ := by
      simp only [load_vocab, h, if_neg hne]
      rfl
    refine ⟨by rw [h1], ?_⟩
    rw [h1]
    simp [load_vocab, List.lookup]
  · intro h he
    have h1 : load_vocab loadFresh cache name false = ⟨[], cache, true⟩ := by
      simp only [load_vocab, h, he]
      rfl
    refine ⟨by rw [h1], by rw [h1], ?_⟩
    rw [h1]
    simp only [load_vocab, h, he]
    rfl

/-- C6 (witness): the amended theorem applied to a loader that returns a
non-empty table, and to one that returns an empty table. -/
theorem C6_cache_once_witness :
    (load_vocab (fun _ => [("A", "B")]) [] "freq" false).cache
      = [("freq", [("A", "B")])] ∧
    (load_vocab (fun _ => [("A", "B")])
        ((load_vocab (fun _ => [("A", "B")]) [] "freq" false).cache)
        "freq" false).loadRan = false ∧
    (load_vocab (fun _ => [])
        ((load_vocab (fun _ => []) [] "freq" false).cache)
        "freq" false).loadRan = true := by
  have h1 := (C6_cache_once (fun _ => [("A", "B")]) [] "freq").2.1
    (by decide) (by decide)
  have h2 := (C6_cache_once (fun _ => []) [] "freq").2.2
    (by decide) (by decide)
  exact ⟨h1.1, h1.2, h2.2.2⟩

/-! ## Claim C8 -/

/-- C8 (counterexample): when the first parse attempt with the guessed
format succeeds but yields an empty graph, the distiller does not try
the fallback sequence, even though the xml fallback would have yielded a
non-empty graph; it reports a parse failure instead of accepting xml. -/
theorem C8_empty_no_retry_cex :
    parseStage (fun fmt => if fmt = "xml" then .pok 5 else .pok 0) "turtle"
      = ParseStage.failed "None" ∧
    (fun fmt : String => if fmt = "xml" then ParseAttempt.pok 5 else .pok 0) "xml"
      = ParseAttempt.pok 5 ∧
    ParseStage.failed "None" ≠ ParseStage.parsed "xml" := by decide

/-- C8 (amended): a first attempt that parses a non-empty graph is
accepted with the guessed format; a first attempt that raises an error
triggers the fixed fallback sequence, minus the guessed format, and the
first format yielding a non-empty graph is accepted; a first attempt
that succeeds with an empty graph triggers no retry and fails with the
sentinel text None as its recorded error; and the failure return carries
conforms false with exactly one error message and no warnings. -/
theorem C8_parse_fallback (parse : RdfParse) (g : String) :
    (∀ n, parse g = ParseAttempt.pok n → 0 < n →
      parseStage parse g = ParseStage.parsed g) ∧
    (parse g = ParseAttempt.pok 0 →
      parseStage parse g = ParseStage.failed "None") ∧
    (∀ e, parse g = ParseAttempt.perr e →
      acceptedFormat (parseStage parse g)
        = (removeFirst g fallbackFormats).find? (fun f => goodAttempt (parse f))) ∧
    (∀ le, (parseFailureReturn g le).conforms = false ∧
      (parseFailureReturn g le).errors.length = 1 ∧
      (parseFailureReturn g le).warnings = []) := by
  refine ⟨?_, ?_, ?_, fun le => ⟨rfl, rfl, rfl⟩⟩
  · intro n h hn
    simp [parseStage, h, hn]
  · intro h
    simp [parseStage, h]
  · intro e h
    simp only [parseStage, h]
    exact acceptedFormat_tryFallback parse (removeFirst g fallbackFormats) e

/-- C8 (witness): the amended theorem applied to a parse oracle that
succeeds at once, and to one that raises on the guessed format and
succeeds on the xml fallback. -/
theorem C8_parse_fallback_witness :
    parseStage (fun _ => ParseAttempt.pok 3) "turtle"
      = ParseStage.parsed "turtle" ∧
    acceptedFormat (parseStage fallbackDemoParse "turtle") = some "xml" := by
  constructor
  · exact (C8_parse_fallback (fun _ => ParseAttempt.pok 3) "turtle").1 3
      (by decide) (by decide)
  · have h := (C8_parse_fallback fallbackDemoParse "turtle").2.2.1 "boom" (by decide)
    rw [h]
    decide

/-! ## Claim C9 -/

/-- C9: the date normalizer maps 31/01/2024 to 2024-01-31 and
2024-01-31T10:00:00 to 2024-01-31, returns none for the sentinel marker
Indisponível and for the impossible calendar date 31/02/2024. -/
theorem C9_normalize_date_examples :
    normalize_date "31/01/2024" = some "2024-01-31" ∧
    normalize_date "2024-01-31T10:00:00" = some "2024-01-31" ∧
    normalize_date "Indisponível" = none ∧
    normalize_date "31/02/2024" = none := by decide

/-! ## Claim C10 -/

/-- C10: when a key is present at the top level of the record, the
extras helper returns the top-level value even when that value is empty
or null, independently of the extension list, and a present-but-falsy
top-level value makes the combined attribute lookup falsy, omitting the
attribute, no matter what the extension list carries under that key. -/
theorem C10_top_level_priority (data : ApiRecord) (key : String) (v : PyVal)
    (h : List.lookup key data.top = some v) :
    getExtraValue data key = v ∧
    (∀ es : List ExtraEntry, getExtraValue ⟨data.top, es⟩ key = v) ∧
    (truthy v = false →
      ∀ es : List ExtraEntry, truthy (lookupAttr ⟨data.top, es⟩ key) = false) := by
  have hget : ∀ es : List ExtraEntry, getExtraValue ⟨data.top, es⟩ key = v := by
    intro es
    simp [getExtraValue, dictHas, dictGet, h]
  have hdata : getExtraValue data key = v := by
    have := hget data.extras
    exact this
  refine ⟨hdata, hget, ?_⟩
  intro hv es
  simp [lookupAttr, dictGet, h, hv, hget es]

/-- C10 (witness): the theorem applied to a record whose top level binds
the periodicity key to the empty string while the extension list carries
a non-empty value under the same key. -/
theorem C10_top_level_priority_witness :
    getExtraValue ⟨[("periodicidade", PyVal.vstr "")],
        [⟨PyVal.vstr "periodicidade", PyVal.vstr "Mensal"⟩]⟩ "periodicidade"
      = PyVal.vstr "" ∧
    truthy (lookupAttr ⟨[("periodicidade", PyVal.vstr "")],
        [⟨PyVal.vstr "periodicidade", PyVal.vstr "Mensal"⟩]⟩ "periodicidade")
      = false := by
  have h := C10_top_level_priority
    ⟨[("periodicidade", PyVal.vstr "")],
     [⟨PyVal.vstr "periodicidade", PyVal.vstr "Mensal"⟩]⟩
    "periodicidade" (PyVal.vstr "") (by decide)
  exact ⟨h.1, h.2.2 (by decide) _⟩

end DcatBr
